import Mathlib

/-!
Verification of the tax computation engine in `tax_rules.py`
(functions `calculate_tax` and `suggest_savings`).

Numeric inputs are modelled as rationals (the Python code computes with
ordinary arithmetic on the input numbers); the Python built-in `round`
(round-half-to-even) is modelled exactly by `pyRound`.
-/

/-- Python's built-in `round` to an integer: round half to even. -/
def pyRound (q : ℚ) : ℤ :=
  if q - ⌊q⌋ < 1/2 then ⌊q⌋
  else if 1/2 < q - ⌊q⌋ then ⌊q⌋ + 1
  else if ⌊q⌋ % 2 = 0 then ⌊q⌋ else ⌊q⌋ + 1

/-- Slab tax of the new regime (the seven-branch `if` chain on
`slab_income` in `calculate_tax`, new-regime section). -/
def newSlabTax (slab_income : ℚ) : ℚ :=
  if slab_income ≤ 400000 then 0
  else if slab_income ≤ 800000 then (slab_income - 400000) * 0.05
  else if slab_income ≤ 1200000 then 20000 + (slab_income - 800000) * 0.10
  else if slab_income ≤ 1600000 then 20000 + 40000 + (slab_income - 1200000) * 0.15
  else if slab_income ≤ 2000000 then 20000 + 40000 + 60000 + (slab_income - 1600000) * 0.20
  else if slab_income ≤ 2400000 then 20000 + 40000 + 60000 + 80000 + (slab_income - 2000000) * 0.25
  else 20000 + 40000 + 60000 + 80000 + 100000 + (slab_income - 2400000) * 0.30

/-- New-regime taxable income: gross income minus the 75,000 standard
deduction, floored at 0. -/
def newRegimeTaxable (gross_income : ℚ) : ℚ :=
  max 0 (gross_income - 75000)

/-- New-regime base tax: slab tax, then the section-87A rebate
(tax nil if taxable income at most 1,200,000), then marginal relief
(tax capped at `taxable_income - 1200000` up to 1,275,000). -/
def newRegimeTax (taxable_income : ℚ) : ℚ :=
  if taxable_income ≤ 1200000 then 0
  else if taxable_income ≤ 1275000 then
    min (newSlabTax taxable_income) (taxable_income - 1200000)
  else newSlabTax taxable_income

/-- Old-regime total deductions: 50,000 standard deduction plus the five
capped deduction fields, caps as in `calculate_tax` (old-regime section). -/
def oldTotalDeductions (age : ℤ) (investments_80c medical_80d
    housing_loan_interest nps_80ccd_1b savings_interest : ℚ) : ℚ :=
  let std_deduction : ℚ := 50000
  let deduction_80c := min investments_80c 150000
  let deduction_80d := min medical_80d (if age ≥ 60 then 50000 else 25000)
  let deduction_nps := min nps_80ccd_1b 50000
  let deduction_home_loan := min housing_loan_interest 200000
  let limit_savings : ℚ := if age ≥ 60 then 50000 else 10000
  let deduction_savings := min savings_interest limit_savings
  std_deduction + deduction_80c + deduction_80d +
    deduction_nps + deduction_home_loan + deduction_savings

/-- Old-regime taxable income: gross income minus total deductions,
floored at 0. -/
def oldRegimeTaxable (gross_income : ℚ) (age : ℤ) (investments_80c medical_80d
    housing_loan_interest nps_80ccd_1b savings_interest : ℚ) : ℚ :=
  max 0 (gross_income - oldTotalDeductions age investments_80c medical_80d
    housing_loan_interest nps_80ccd_1b savings_interest)

/-- Age-dependent basic exemption of the old regime. -/
def basicExemption (age : ℤ) : ℚ :=
  if age ≥ 80 then 500000
  else if age ≥ 60 then 300000
  else 250000

/-- Slab tax of the old regime relative to the basic exemption. -/
def oldSlabTax (basic_exemption slab_income : ℚ) : ℚ :=
  if slab_income ≤ basic_exemption then 0
  else if slab_income ≤ 500000 then (slab_income - basic_exemption) * 0.05
  else if slab_income ≤ 1000000 then
    (500000 - basic_exemption) * 0.05 + (slab_income - 500000) * 0.20
  else (500000 - basic_exemption) * 0.05 + 100000 + (slab_income - 1000000) * 0.30

/-- Old-regime base tax: slab tax, then the section-87A rebate
(tax nil if taxable income at most 500,000). -/
def oldRegimeTax (basic_exemption taxable_income : ℚ) : ℚ :=
  if taxable_income ≤ 500000 then 0
  else oldSlabTax basic_exemption taxable_income

/-- Taxable income as computed by `calculate_tax`: the variable
`taxable_income` is initialised to 0 and set only in the two regime
branches. -/
def taxableIncomeOf (gross_income : ℚ) (age : ℤ) (investments_80c medical_80d
    housing_loan_interest nps_80ccd_1b savings_interest : ℚ) (regime : String) : ℚ :=
  if regime = "new" then newRegimeTaxable gross_income
  else if regime = "old" then
    oldRegimeTaxable gross_income age investments_80c medical_80d
      housing_loan_interest nps_80ccd_1b savings_interest
  else 0

/-- Base tax (before surcharge and cess) as computed by `calculate_tax`:
the variable `tax` is initialised to 0 and set only in the two regime
branches. -/
def baseTaxOf (gross_income : ℚ) (age : ℤ) (investments_80c medical_80d
    housing_loan_interest nps_80ccd_1b savings_interest : ℚ) (regime : String) : ℚ :=
  if regime = "new" then newRegimeTax (newRegimeTaxable gross_income)
  else if regime = "old" then
    oldRegimeTax (basicExemption age)
      (oldRegimeTaxable gross_income age investments_80c medical_80d
        housing_loan_interest nps_80ccd_1b savings_interest)
  else 0

/-- Surcharge rate chosen from `taxable_income` and the regime string
(surcharge section of `calculate_tax`). -/
def surchargeRate (regime : String) (taxable_income : ℚ) : ℚ :=
  if taxable_income > 5000000 then
    if taxable_income ≤ 10000000 then 0.10
    else if taxable_income ≤ 20000000 then 0.15
    else if regime = "new" ∨ taxable_income ≤ 50000000 then 0.25
    else 0.37
  else 0

/-- The function `calculate_tax` of `tax_rules.py`: base tax by regime,
surcharge on the base tax, 4% cess on tax plus surcharge, result rounded
to an integer with Python's `round`. -/
def calculate_tax (gross_income : ℚ) (age : ℤ) (investments_80c medical_80d
    housing_loan_interest nps_80ccd_1b savings_interest : ℚ) (regime : String) : ℤ :=
  let taxable_income := taxableIncomeOf gross_income age investments_80c medical_80d
    housing_loan_interest nps_80ccd_1b savings_interest regime
  let tax := baseTaxOf gross_income age investments_80c medical_80d
    housing_loan_interest nps_80ccd_1b savings_interest regime
  let surcharge := tax * surchargeRate regime taxable_income
  let total_tax := tax + surcharge
  let cess := total_tax * 0.04
  pyRound (total_tax + cess)

/-- Rounding an integer-valued rational is the identity. -/
theorem pyRound_intCast (n : ℤ) : pyRound (n : ℚ) = n := by
  simp [pyRound]

theorem pyRound_zero : pyRound 0 = 0 := by
  simp [pyRound]

theorem pyRound_ofNat (n : ℕ) [n.AtLeastTwo] :
    pyRound (OfNat.ofNat n : ℚ) = OfNat.ofNat n := by
  have h := pyRound_intCast (OfNat.ofNat n)
  rwa [Int.cast_ofNat] at h

theorem taxableIncomeOf_new (g : ℚ) (age : ℤ) (c d hl np sv : ℚ) :
    taxableIncomeOf g age c d hl np sv "new" = newRegimeTaxable g := by
  simp [taxableIncomeOf]

theorem taxableIncomeOf_old (g : ℚ) (age : ℤ) (c d hl np sv : ℚ) :
    taxableIncomeOf g age c d hl np sv "old" = oldRegimeTaxable g age c d hl np sv := by
  simp [taxableIncomeOf, show ("old" : String) ≠ "new" by decide]

theorem baseTaxOf_new (g : ℚ) (age : ℤ) (c d hl np sv : ℚ) :
    baseTaxOf g age c d hl np sv "new" = newRegimeTax (newRegimeTaxable g) := by
  simp [baseTaxOf]

theorem baseTaxOf_old (g : ℚ) (age : ℤ) (c d hl np sv : ℚ) :
    baseTaxOf g age c d hl np sv "old" =
      oldRegimeTax (basicExemption age) (oldRegimeTaxable g age c d hl np sv) := by
  simp [baseTaxOf, show ("old" : String) ≠ "new" by decide]

/-- C1: worked old-regime example: gross income 1,200,000 at age 30 with
150,000 of 80C investments and 25,000 of 80D premiums yields exactly
111,800 (deductions 225,000, taxable 975,000, base tax 107,500, no
surcharge, cess 4,300). -/
theorem calculate_tax_old_regime_example :
    calculate_tax 1200000 30 150000 25000 0 0 0 "old" = 111800 := by
  norm_num [calculate_tax, taxableIncomeOf_old, baseTaxOf_old, oldRegimeTaxable,
    oldTotalDeductions, basicExemption, oldRegimeTax, oldSlabTax, surchargeRate,
    show ("old" : String) ≠ "new" by decide]
  rw [pyRound_ofNat]

/-- C2: full rebate under the new regime: any non-negative gross income
whose taxable income (gross minus the 75,000 standard deduction, floored
at 0) is at most 1,200,000 — equivalently gross income at most
1,275,000 — yields tax 0, for any age and any deduction inputs. -/
theorem new_regime_full_rebate (g : ℚ) (age : ℤ) (c d hl np sv : ℚ)
    (h0 : 0 ≤ g) (h1 : g ≤ 1275000) :
    calculate_tax g age c d hl np sv "new" = 0 := by
  have ht : newRegimeTaxable g ≤ 1200000 :=
    max_le (by norm_num) (by linarith)
  have htax : newRegimeTax (newRegimeTaxable g) = 0 := by
    rw [newRegimeTax, if_pos ht]
  have hrate : surchargeRate "new" (newRegimeTaxable g) = 0 := by
    rw [surchargeRate, if_neg (by push_neg; linarith)]
  simp only [calculate_tax, taxableIncomeOf_new, baseTaxOf_new, htax, hrate]
  norm_num [pyRound_zero]

theorem new_regime_full_rebate_witness :
    calculate_tax 1000000 30 0 0 0 0 0 "new" = 0 :=
  new_regime_full_rebate 1000000 30 0 0 0 0 0 (by norm_num) (by norm_num)

/-- C10: an unrecognized regime string (anything other than the exact
lower-case "new" and "old", including "NEW" and "OLD") skips both regime
branches, leaving base tax and taxable income at 0, so the function
raises no error and returns 0. -/
theorem unknown_regime_zero (g : ℚ) (age : ℤ) (c d hl np sv : ℚ)
    (regime : String) (hn : regime ≠ "new") (ho : regime ≠ "old") :
    calculate_tax g age c d hl np sv regime = 0 := by
  simp only [calculate_tax, taxableIncomeOf, baseTaxOf, if_neg hn, if_neg ho]
  norm_num [surchargeRate, pyRound_zero]

theorem unknown_regime_zero_witness :
    calculate_tax 1200000 30 150000 25000 0 0 0 "NEW" = 0 :=
  unknown_regime_zero 1200000 30 150000 25000 0 0 0 "NEW"
    (by decide) (by decide)

/-- C7: deduction noninterference under the new regime: two calls that
differ only in the five deduction inputs return the same value — the new
regime reads none of them. -/
theorem new_regime_deduction_noninterference (g : ℚ) (age : ℤ)
    (c d hl np sv c2 d2 hl2 np2 sv2 : ℚ) :
    calculate_tax g age c d hl np sv "new" =
      calculate_tax g age c2 d2 hl2 np2 sv2 "new" := by
  simp only [calculate_tax, taxableIncomeOf_new, baseTaxOf_new]

/-- C3: marginal relief under the new regime: for taxable income strictly
above 1,200,000 and at most 1,275,000 the base tax is the minimum of the
slab tax and `taxable - 1200000`; at taxable income 1,250,000 (gross
1,325,000) the base tax is 50,000 and the returned value is 52,000; above
1,275,000 the cap no longer applies and the full slab tax is used. -/
theorem new_regime_marginal_relief :
    (∀ g : ℚ, 1200000 < newRegimeTaxable g → newRegimeTaxable g ≤ 1275000 →
      newRegimeTax (newRegimeTaxable g) =
        min (newSlabTax (newRegimeTaxable g)) (newRegimeTaxable g - 1200000)) ∧
    (newRegimeTax 1250000 = 50000 ∧ calculate_tax 1325000 30 0 0 0 0 0 "new" = 52000) ∧
    (∀ g : ℚ, 1275000 < newRegimeTaxable g →
      newRegimeTax (newRegimeTaxable g) = newSlabTax (newRegimeTaxable g)) := by
  refine ⟨fun g h1 h2 => ?_, ⟨?_, ?_⟩, fun g h3 => ?_⟩
  · rw [newRegimeTax, if_neg (by linarith), if_pos h2]
  · norm_num [newRegimeTax, newSlabTax]
  · norm_num [calculate_tax, taxableIncomeOf_new, baseTaxOf_new,
      newRegimeTaxable, newRegimeTax, newSlabTax, surchargeRate]
    rw [pyRound_ofNat]
  · rw [newRegimeTax, if_neg (by linarith), if_neg (by linarith)]

theorem new_regime_marginal_relief_witness :
    newRegimeTax (newRegimeTaxable 1325000) =
      min (newSlabTax (newRegimeTaxable 1325000)) (newRegimeTaxable 1325000 - 1200000) :=
  new_regime_marginal_relief.1 1325000
    (by norm_num [newRegimeTaxable]) (by norm_num [newRegimeTaxable])

/-- Surcharge rate as the specification words it, keyed on taxable
income: 0 up to 5,000,000; 10% up to 10,000,000; 15% up to 20,000,000;
25% for the new regime above that or the old regime up to 50,000,000;
37% for the old regime above 50,000,000. -/
def claimSurchargeRate (regime : String) (taxable_income : ℚ) : ℚ :=
  if taxable_income ≤ 5000000 then 0
  else if taxable_income ≤ 10000000 then 0.10
  else if taxable_income ≤ 20000000 then 0.15
  else if regime = "new" ∨ (regime = "old" ∧ taxable_income ≤ 50000000) then 0.25
  else if regime = "old" then 0.37
  else 0

theorem surchargeRate_eq_claim (regime : String)
    (h : regime = "new" ∨ regime = "old") (t : ℚ) :
    surchargeRate regime t = claimSurchargeRate regime t := by
  rcases h with rfl | rfl <;>
    simp only [surchargeRate, claimSurchargeRate] <;>
    split_ifs <;> (try rfl) <;> (try (exfalso; linarith)) <;> simp_all <;>
    try linarith

/-- C4: surcharge and cess assembly: every call returns
`round(base_tax * (1 + s) * 1.04)` where `s` is the surcharge rate of
the specification's table, keyed on taxable income, and the 4% cess
applies to base tax plus surcharge. -/
theorem surcharge_cess_assembly (g : ℚ) (age : ℤ) (c d hl np sv : ℚ)
    (regime : String) :
    calculate_tax g age c d hl np sv regime =
      pyRound (baseTaxOf g age c d hl np sv regime *
        (1 + claimSurchargeRate regime
          (taxableIncomeOf g age c d hl np sv regime)) * 1.04) := by
  by_cases hn : regime = "new"
  · subst hn
    simp only [calculate_tax]
    rw [surchargeRate_eq_claim _ (Or.inl rfl)]
    congr 1
    ring
  · by_cases ho : regime = "old"
    · subst ho
      simp only [calculate_tax]
      rw [surchargeRate_eq_claim _ (Or.inr rfl)]
      congr 1
      ring
    · simp only [calculate_tax, taxableIncomeOf, baseTaxOf, if_neg hn, if_neg ho]
      congr 1
      ring

/-- Input snapshot read by `suggest_savings` via `data.get` with
defaults: total income, age, 80C investments, 80D premiums, regime. -/
structure FinancialProfile where
  total_income : ℚ
  age : ℤ
  investments_80c : ℚ
  medical_80d : ℚ
  regime : String
deriving DecidableEq

/-- The advice strings built by `suggest_savings`, abstracted to their
kind and numeric payload (the rupee formatting of the message text is
presentation only). -/
inductive Suggestion where
  | switchRegime (other_regime : String) (savings : ℤ)
  | invest80C (gap : ℚ)
  | buyHealthInsurance
  | increase80D (gap : ℚ)
  | cliffWarning
  | highIncome
  | alreadyOptimized
deriving DecidableEq

/-- Suggestions accumulated by `suggest_savings` before the fallback:
regime comparison, old-regime deduction gaps, new-regime cliff warning,
high-income heuristic, in source order. -/
def suggestionsCore (data : FinancialProfile) : List Suggestion :=
  let income := data.total_income
  let age := data.age
  let inv_80c := data.investments_80c
  let med_80d := data.medical_80d
  let regime := data.regime
  let current_tax := calculate_tax income age
    (if regime = "old" then inv_80c else 0)
    (if regime = "old" then med_80d else 0) 0 0 0 regime
  let other_regime := if regime = "new" then "old" else "new"
  let other_tax := calculate_tax income age
    (if other_regime = "old" then inv_80c else 0)
    (if other_regime = "old" then med_80d else 0) 0 0 0 other_regime
  (if other_tax < current_tax then
    [Suggestion.switchRegime other_regime (current_tax - other_tax)] else []) ++
  (if regime = "old" then
    (if inv_80c < 150000 then [Suggestion.invest80C (150000 - inv_80c)] else []) ++
    (if med_80d = 0 then [Suggestion.buyHealthInsurance]
     else if med_80d < 25000 then [Suggestion.increase80D (25000 - med_80d)]
     else [])
   else []) ++
  (if regime = "new" then
    (let taxable := max 0 (income - 75000)
     if 1200000 < taxable ∧ taxable ≤ 1300000 then [Suggestion.cliffWarning] else [])
   else []) ++
  (if income > 1500000 then [Suggestion.highIncome] else [])

/-- The function `suggest_savings` of `tax_rules.py`: the accumulated
suggestions, or the single "already optimized" affirmation when none
was generated. -/
def suggest_savings (data : FinancialProfile) : List Suggestion :=
  let suggestions := suggestionsCore data
  if suggestions = [] then [Suggestion.alreadyOptimized] else suggestions

theorem alreadyOptimized_not_mem_core (data : FinancialProfile) :
    Suggestion.alreadyOptimized ∉ suggestionsCore data := by
  simp only [suggestionsCore, List.mem_append]
  split_ifs <;> simp

/-- C9: advisor totality and fallback: every call returns a non-empty
list; the "already optimized" affirmation is a member exactly when the
regime-comparison, deduction-gap, cliff and high-income steps produced
no suggestion, and in that case the returned list is exactly the single
affirmation. -/
theorem suggest_savings_total_fallback (p : FinancialProfile) :
    suggest_savings p ≠ [] ∧
    (Suggestion.alreadyOptimized ∈ suggest_savings p ↔ suggestionsCore p = []) ∧
    (suggestionsCore p = [] → suggest_savings p = [Suggestion.alreadyOptimized]) := by
  by_cases hc : suggestionsCore p = []
  · simp [suggest_savings, hc]
  · refine ⟨by simp [suggest_savings, hc], ?_, fun h => absurd h hc⟩
    simp only [suggest_savings, if_neg hc]
    exact ⟨fun hmem => absurd hmem (alreadyOptimized_not_mem_core p),
      fun h => absurd h hc⟩

theorem suggest_savings_total_fallback_witness :
    suggest_savings ⟨0, 30, 150000, 25000, "old"⟩ = [Suggestion.alreadyOptimized] :=
  (suggest_savings_total_fallback ⟨0, 30, 150000, 25000, "old"⟩).2.2 (by
    norm_num [suggestionsCore, calculate_tax, taxableIncomeOf, baseTaxOf,
      oldRegimeTaxable, oldTotalDeductions, basicExemption, oldRegimeTax,
      oldSlabTax, newRegimeTaxable, newRegimeTax, newSlabTax, surchargeRate,
      pyRound_zero, show ("old" : String) ≠ "new" by decide])

/-- C8 counterexample: at total income 1,375,000 the new-regime taxable
income is exactly 1,300,000, which is not strictly below 1,300,000, yet
the cliff-avoidance suggestion is emitted — the upper endpoint is
included by the code, contradicting the claimed open interval. -/
theorem cliff_suggestion_boundary_cex :
    Suggestion.cliffWarning ∈ suggest_savings ⟨1375000, 30, 0, 0, "new"⟩ ∧
      ¬ (max 0 ((1375000 : ℚ) - 75000) < 1300000) := by
  constructor
  · simp only [suggest_savings, suggestionsCore]
    norm_num [show ("new" : String) ≠ "old" by decide]
  · norm_num

/-- C8 (amended): for every profile with regime "new" the cliff-avoidance
suggestion is emitted exactly when the taxable income
`max 0 (total_income - 75000)` is strictly above 1,200,000 and at most
1,300,000 — the upper endpoint is included, not excluded. -/
theorem cliff_suggestion_boundary (p : FinancialProfile)
    (hreg : p.regime = "new") :
    Suggestion.cliffWarning ∈ suggest_savings p ↔
      (1200000 < max 0 (p.total_income - 75000) ∧
        max 0 (p.total_income - 75000) ≤ 1300000) := by
  by_cases hc : 1200000 < max 0 (p.total_income - 75000) ∧
      max 0 (p.total_income - 75000) ≤ 1300000
  · simp only [suggest_savings, suggestionsCore, hreg,
      show ("new" : String) ≠ "old" by decide, if_neg, if_pos, hc]
    simp [hc]
  · simp only [suggest_savings, suggestionsCore, hreg]
    simp only [show (("new" : String) = "old") = False by simp, if_false,
      show (("new" : String) = "new") = True by simp, if_true, hc]
    split_ifs <;> simp_all

theorem cliff_suggestion_boundary_witness :
    Suggestion.cliffWarning ∈ suggest_savings ⟨1350000, 30, 0, 0, "new"⟩ :=
  (cliff_suggestion_boundary ⟨1350000, 30, 0, 0, "new"⟩ rfl).2 (by norm_num)

theorem calculate_tax_old_congr (g : ℚ) (age : ℤ)
    (c d hl np sv c2 d2 hl2 np2 sv2 : ℚ)
    (h : oldTotalDeductions age c d hl np sv =
      oldTotalDeductions age c2 d2 hl2 np2 sv2) :
    calculate_tax g age c d hl np sv "old" =
      calculate_tax g age c2 d2 hl2 np2 sv2 "old" := by
  simp only [calculate_tax, taxableIncomeOf_old, baseTaxOf_old,
    oldRegimeTaxable, h]

/-- C6: clamping, never rejection, in the old regime: raising any
deduction input to or above its cap (80C 150,000; 80D 50,000 from age 60
else 25,000; NPS 50,000; home-loan interest 200,000; savings interest
50,000 from age 60 else 10,000) gives the same result as entering the
cap itself, and whenever total capped deductions reach the gross income
the result is 0 — taxable income is floored at 0 and no input is
rejected. -/
theorem old_regime_clamping (g : ℚ) (age : ℤ) (c d hl np sv : ℚ) :
    (150000 ≤ c → calculate_tax g age c d hl np sv "old" =
      calculate_tax g age 150000 d hl np sv "old") ∧
    ((if age ≥ 60 then (50000 : ℚ) else 25000) ≤ d →
      calculate_tax g age c d hl np sv "old" =
        calculate_tax g age c (if age ≥ 60 then 50000 else 25000) hl np sv "old") ∧
    (50000 ≤ np → calculate_tax g age c d hl np sv "old" =
      calculate_tax g age c d hl 50000 sv "old") ∧
    (200000 ≤ hl → calculate_tax g age c d hl np sv "old" =
      calculate_tax g age c d 200000 np sv "old") ∧
    ((if age ≥ 60 then (50000 : ℚ) else 10000) ≤ sv →
      calculate_tax g age c d hl np sv "old" =
        calculate_tax g age c d hl np (if age ≥ 60 then 50000 else 10000) "old") ∧
    (g ≤ oldTotalDeductions age c d hl np sv →
      calculate_tax g age c d hl np sv "old" = 0) := by
  refine ⟨fun h1 => ?_, fun h2 => ?_, fun h3 => ?_, fun h4 => ?_, fun h5 => ?_,
    fun h6 => ?_⟩
  · exact calculate_tax_old_congr g age _ _ _ _ _ _ _ _ _ _ (by
      simp only [oldTotalDeductions]; rw [min_eq_right h1, min_self])
  · exact calculate_tax_old_congr g age _ _ _ _ _ _ _ _ _ _ (by
      simp only [oldTotalDeductions]; rw [min_eq_right h2, min_self])
  · exact calculate_tax_old_congr g age _ _ _ _ _ _ _ _ _ _ (by
      simp only [oldTotalDeductions]; rw [min_eq_right h3, min_self])
  · exact calculate_tax_old_congr g age _ _ _ _ _ _ _ _ _ _ (by
      simp only [oldTotalDeductions]; rw [min_eq_right h4, min_self])
  · exact calculate_tax_old_congr g age _ _ _ _ _ _ _ _ _ _ (by
      simp only [oldTotalDeductions]; rw [min_eq_right h5, min_self])
  · have ht : oldRegimeTaxable g age c d hl np sv = 0 := by
      rw [oldRegimeTaxable, max_eq_left (by linarith)]
    simp only [calculate_tax, taxableIncomeOf_old, baseTaxOf_old, ht]
    norm_num [oldRegimeTax, surchargeRate, pyRound_zero]

theorem old_regime_clamping_witness :
    calculate_tax 100000 30 200000 0 0 0 0 "old" = 0 :=
  (old_regime_clamping 100000 30 200000 0 0 0 0).2.2.2.2.2 (by
    norm_num [oldTotalDeductions])

theorem le_pyRound (q : ℚ) : ⌊q⌋ ≤ pyRound q := by
  unfold pyRound; split_ifs <;> omega

theorem pyRound_le (q : ℚ) : pyRound q ≤ ⌊q⌋ + 1 := by
  unfold pyRound; split_ifs <;> omega

/-- Rounding half to even is a monotone map. -/
theorem pyRound_mono {x y : ℚ} (h : x ≤ y) : pyRound x ≤ pyRound y := by
  rcases lt_or_eq_of_le (Int.floor_le_floor h) with hf | hf
  · calc pyRound x ≤ ⌊x⌋ + 1 := pyRound_le x
      _ ≤ ⌊y⌋ := by omega
      _ ≤ pyRound y := le_pyRound y
  · unfold pyRound
    rw [← hf]
    split_ifs <;> first | omega | (exfalso; linarith)

theorem newSlabTax_nonneg (t : ℚ) : 0 ≤ newSlabTax t := by
  unfold newSlabTax; split_ifs <;> linarith

set_option maxHeartbeats 1000000 in
theorem newSlabTax_mono {x y : ℚ} (h : x ≤ y) : newSlabTax x ≤ newSlabTax y := by
  unfold newSlabTax; split_ifs <;> linarith

theorem newRegimeTax_nonneg (t : ℚ) : 0 ≤ newRegimeTax t := by
  unfold newRegimeTax
  split_ifs with h1 h2
  · norm_num
  · exact le_min (newSlabTax_nonneg t) (by linarith)
  · exact newSlabTax_nonneg t

theorem newRegimeTax_mono {x y : ℚ} (h : x ≤ y) :
    newRegimeTax x ≤ newRegimeTax y := by
  unfold newRegimeTax
  split_ifs with h1 h2 h3 h4 h5 h6 h7 h8
  · exact le_refl 0
  · exact le_min (newSlabTax_nonneg _) (by linarith)
  · exact newSlabTax_nonneg _
  · exact absurd (h.trans h5) h1
  · exact min_le_min (newSlabTax_mono h) (by linarith)
  · exact (min_le_left _ _).trans (newSlabTax_mono h)
  · exact absurd (h.trans h7) h1
  · exact absurd (h.trans h8) h4
  · exact newSlabTax_mono h

theorem oldSlabTax_nonneg (e t : ℚ) (he : e ≤ 500000) : 0 ≤ oldSlabTax e t := by
  unfold oldSlabTax; split_ifs <;> linarith

set_option maxHeartbeats 1000000 in
theorem oldSlabTax_mono (e : ℚ) (he : e ≤ 500000) {x y : ℚ} (h : x ≤ y) :
    oldSlabTax e x ≤ oldSlabTax e y := by
  unfold oldSlabTax; split_ifs <;> linarith

theorem oldRegimeTax_nonneg (e t : ℚ) (he : e ≤ 500000) :
    0 ≤ oldRegimeTax e t := by
  unfold oldRegimeTax
  split_ifs
  · exact le_refl 0
  · exact oldSlabTax_nonneg e t he

theorem oldRegimeTax_mono (e : ℚ) (he : e ≤ 500000) {x y : ℚ} (h : x ≤ y) :
    oldRegimeTax e x ≤ oldRegimeTax e y := by
  unfold oldRegimeTax
  split_ifs with h1 h2 h3
  · exact le_refl 0
  · exact oldSlabTax_nonneg e y he
  · exact absurd (h.trans h3) h1
  · exact oldSlabTax_mono e he h

theorem basicExemption_le (age : ℤ) : basicExemption age ≤ 500000 := by
  unfold basicExemption; split_ifs <;> norm_num

theorem surchargeRate_nonneg (regime : String) (t : ℚ) :
    0 ≤ surchargeRate regime t := by
  unfold surchargeRate; split_ifs <;> norm_num

theorem surchargeRate_mono (regime : String) {x y : ℚ} (h : x ≤ y) :
    surchargeRate regime x ≤ surchargeRate regime y := by
  by_cases hn : regime = "new"
  · subst hn
    simp only [surchargeRate, eq_self_iff_true, true_or, if_true]
    split_ifs <;> linarith
  · have hd : ∀ t : ℚ, (regime = "new" ∨ t ≤ 50000000) ↔ t ≤ 50000000 :=
      fun t => or_iff_right hn
    simp only [surchargeRate, hd]
    split_ifs <;> linarith

/-- C5: monotonicity in income: for a fixed regime, age and deduction
inputs, the returned tax is non-decreasing as gross income increases,
across the rebate, marginal-relief and surcharge thresholds. -/
theorem calculate_tax_mono_income (regime : String) (age : ℤ)
    (c d hl np sv : ℚ) {g1 g2 : ℚ} (h0 : 0 ≤ g1) (h : g1 ≤ g2) :
    calculate_tax g1 age c d hl np sv regime ≤
      calculate_tax g2 age c d hl np sv regime := by
  by_cases hn : regime = "new"
  · subst hn
    have ht : newRegimeTaxable g1 ≤ newRegimeTaxable g2 :=
      max_le_max le_rfl (by linarith)
    have htax := newRegimeTax_mono ht
    have htax0 := newRegimeTax_nonneg (newRegimeTaxable g1)
    have hrate := surchargeRate_mono "new" ht
    have hrate0 := surchargeRate_nonneg "new" (newRegimeTaxable g1)
    have hprod := mul_le_mul htax hrate hrate0 (htax0.trans htax)
    simp only [calculate_tax, taxableIncomeOf_new, baseTaxOf_new]
    exact pyRound_mono (by linarith)
  · by_cases ho : regime = "old"
    · subst ho
      have he := basicExemption_le age
      have ht : oldRegimeTaxable g1 age c d hl np sv ≤
          oldRegimeTaxable g2 age c d hl np sv :=
        max_le_max le_rfl (by linarith)
      have htax := oldRegimeTax_mono (basicExemption age) he ht
      have htax0 := oldRegimeTax_nonneg (basicExemption age)
        (oldRegimeTaxable g1 age c d hl np sv) he
      have hrate := surchargeRate_mono "old" ht
      have hrate0 := surchargeRate_nonneg "old"
        (oldRegimeTaxable g1 age c d hl np sv)
      have hprod := mul_le_mul htax hrate hrate0 (htax0.trans htax)
      simp only [calculate_tax, taxableIncomeOf_old, baseTaxOf_old]
      exact pyRound_mono (by linarith)
    · simp only [calculate_tax, taxableIncomeOf, baseTaxOf, if_neg hn, if_neg ho]
      exact le_refl _

theorem calculate_tax_mono_income_witness :
    calculate_tax 1000000 30 0 0 0 0 0 "new" ≤
      calculate_tax 2000000 30 0 0 0 0 0 "new" :=
  calculate_tax_mono_income "new" 30 0 0 0 0 0 (by norm_num) (by norm_num)
